import Mathlib

/-!
Verification development for the `edx_xblock_scorm` repository
(`scormxblock/scormxblock.py` and `scormxblock/settings.py`).

The Python code is shallowly embedded: JSON values become the inductive
type `JVal`, Python dictionaries become association lists (JSON parsing
dedupes keys, so keys are unique in documents produced by `json.loads`),
Python floats become `Rat` (all the arithmetic in the source is exact
division of small integers), and raising an exception becomes returning
`Except.error` alongside the in-memory state at the moment of the raise.
The external library functions `json.loads` and `json.dumps` are
parameters of the handlers that use them.
-/

set_option linter.unusedVariables false

/-- Model of a deserialized JSON value (the result of `json.loads`), which
is also the universe of Python values flowing through the SCORM handlers.
`null` stands for Python `None`. -/
inductive JVal where
  | null
  | bool (b : Bool)
  | num (q : Rat)
  | str (s : String)
  | arr (xs : List JVal)
  | obj (kvs : List (String × JVal))

/-- Python exceptions that the embedded code can raise. -/
inductive PyError where
  | valueError
  | typeError
  | keyError
  | attributeError
  | unboundLocalError
  | zeroDivisionError
  | unicodeDecodeError
  deriving DecidableEq

/-- Lookup in a Python dict modelled as an association list
(`d[k]` / `d.get(k)`); first match, and keys are unique in real dicts. -/
def dictGet : List (String × JVal) → String → Option JVal
  | [], _ => none
  | (k1, v) :: rest, k => if k1 = k then some v else dictGet rest k

/-- Assignment `d[k] = v` on a Python dict modelled as an association
list: replace in place if the key exists, else append (insertion order,
as Python dicts do). -/
def dictSet : List (String × JVal) → String → JVal → List (String × JVal)
  | [], k, v => [(k, v)]
  | (k1, v1) :: rest, k, v =>
      if k1 = k then (k, v) :: rest else (k1, v1) :: dictSet rest k v

/-- Python `dict.update(base, overrides)`: set every key of `overrides`
into `base`, left to right. -/
def dictUpdate (base overrides : List (String × JVal)) : List (String × JVal) :=
  overrides.foldl (fun acc kv => dictSet acc kv.1 kv.2) base

/-- Python truthiness of a value (`if scos:` etc.). -/
def pyTruthy : JVal → Bool
  | .null => false
  | .bool b => b
  | .num q => if q = 0 then false else true
  | .str s => if s = "" then false else true
  | .arr xs => !xs.isEmpty
  | .obj kvs => !kvs.isEmpty

/-- Truthiness of a `dict.get` result (`None` for a missing key is falsy). -/
def jTruthyOpt : Option JVal → Bool
  | none => false
  | some v => pyTruthy v

/-- Python `v == s` for a string literal `s`: true only when `v` is that
very string (values of other types never equal a `str`). -/
def jEqStr : Option JVal → String → Bool
  | some (.str t), s => t = s
  | _, _ => false

/-- The `.get` result for a missing key is Python `None`. -/
def optToPy : Option JVal → JVal
  | none => .null
  | some v => v

/-- Strip leading and trailing whitespace from a character list (the
whitespace stripping Python's `int`/`float` builtins apply to strings). -/
def trimChars (cs : List Char) : List Char :=
  ((cs.dropWhile (fun c => c.isWhitespace)).reverse.dropWhile (fun c => c.isWhitespace)).reverse

/-- Decimal digits to a natural number; `none` when empty or a non-digit
appears. -/
def digitsVal (cs : List Char) : Option Nat :=
  if cs.isEmpty then none
  else cs.foldl
    (fun acc c => acc.bind (fun n => if c.isDigit then some (n * 10 + (c.toNat - 48)) else none))
    (some 0)

/-- Unsigned decimal literal with an optional fraction part, as accepted
by Python's `float` builtin on the strings this code sees. -/
def parseUnsignedRat (cs : List Char) : Option Rat :=
  match cs.span (fun c => !(c = '.')) with
  | (intPart, rest) =>
    match rest with
    | [] => (digitsVal intPart).map (fun n => (n : Rat))
    | _ :: fracPart =>
      if intPart.isEmpty && fracPart.isEmpty then none
      else
        ((if intPart.isEmpty then some 0 else digitsVal intPart).bind (fun i =>
          (if fracPart.isEmpty then some 0 else digitsVal fracPart).map (fun f =>
            (i : Rat) + (f : Rat) / ((10 : Rat) ^ fracPart.length))))

/-- Python `float(s)` on a string: optional sign, decimal digits with an
optional fraction; surrounding whitespace is stripped; `ValueError`
(`none`) otherwise. -/
def pyFloatOfString (s : String) : Option Rat :=
  match trimChars s.toList with
  | '-' :: rest => (parseUnsignedRat rest).map (fun q => -q)
  | '+' :: rest => parseUnsignedRat rest
  | cs => parseUnsignedRat cs

/-- Python `int(s)` on a string: optional sign and decimal digits only
(no fraction); `ValueError` (`none`) otherwise. -/
def pyIntOfString (s : String) : Option Int :=
  match trimChars s.toList with
  | '-' :: rest => (digitsVal rest).map (fun n => -(n : Int))
  | '+' :: rest => (digitsVal rest).map (fun n => (n : Int))
  | cs => (digitsVal cs).map (fun n => (n : Int))

/-- Truncation toward zero, as Python `int(float)` does. -/
def ratTrunc (q : Rat) : Int := q.num.tdiv (q.den : Int)

/-- Python `int(v)` on a value read out of the status document. -/
def pyInt : JVal → Except PyError Int
  | .num q => .ok (ratTrunc q)
  | .str s =>
    match pyIntOfString s with
    | some n => .ok n
    | none => .error .valueError
  | .bool b => .ok (if b then 1 else 0)
  | _ => .error .typeError

/-- Python `float(v)` applied to the result of `scorm_data.get('score')`
(`none` is Python `None`, which `float` rejects with a `TypeError`). -/
def pyFloat : Option JVal → Except PyError Rat
  | none => .error .typeError
  | some .null => .error .typeError
  | some (.bool b) => .ok (if b then 1 else 0)
  | some (.num q) => .ok q
  | some (.str s) =>
    match pyFloatOfString s with
    | some q => .ok q
    | none => .error .valueError
  | some (.arr _) => .error .typeError
  | some (.obj _) => .error .typeError

/-- Python `score != ''`: false only when the value is exactly the empty
string (`None` and numbers compare unequal to `''`). -/
def scoreNeEmptyStr : Option JVal → Bool
  | some (.str s) => !(s = "")
  | _ => true

/-- A grade event published to the runtime:
`{'value': float, 'max_value': weight}`. -/
structure GradeEvent where
  value : Rat
  max_value : Int

/-- The per-learner fields of `ScormXBlock` touched by the handlers under
study, with their declared defaults, plus the published-events log of
`runtime.publish` and a ghost counter of `_init_scos` executions. -/
structure ScormState where
  raw_scorm_status : String
  scorm_initialized : Bool
  lesson_status : JVal
  lesson_score : Rat
  weight : Int
  events : List GradeEvent
  initCount : Nat

/-- A fresh learner state: every field is at its declared default
(`raw_scorm_status = '\x7b\x7d'`, `scorm_initialized = False`,
`lesson_status = 'not attempted'`, `lesson_score = 0`, `weight = 1`). -/
def freshState : ScormState :=
  { raw_scorm_status := "\x7b\x7d"
    scorm_initialized := false
    lesson_status := .str "not attempted"
    lesson_score := 0
    weight := 1
    events := []
    initCount := 0 }

/-- The constant `DEFAULT_SCO_MAX_SCORE = 100`. -/
def DEFAULT_SCO_MAX_SCORE : Int := 100

/-- Embedding of `ScormXBlock._get_value_from_sco(sco, key, default)`.

The source wraps `val = sco[key]` in `try/except (KeyError, ValueError)/finally`,
and the `finally` block evaluates `str(val)`.  When the lookup raised
(missing key, or a non-dict `sco` whose indexing raises `TypeError`),
`val` was never bound, so the `finally` block itself raises
`UnboundLocalError`, which replaces both the pending `return default` of
the `except` arm and any in-flight exception.  When the lookup succeeded,
the `finally` block returns `default` for a blank-string value and the
value otherwise. -/
def get_value_from_sco (sco : JVal) (key : String) (dflt : JVal) : Except PyError JVal :=
  match sco with
  | .obj kvs =>
    match dictGet kvs key with
    | some val =>
      match val with
      | .str s => if s = "" then .ok dflt else .ok val
      | _ => .ok val
    | none => .error .unboundLocalError
  | _ => .error .unboundLocalError

/-- One iteration of the `_set_lesson_score` loop:
`sco = scos[sco]['data']` followed by
`int(self._get_value_from_sco(sco, 'cmi.core.score.raw', 0))`. -/
def scoRecordScore (record : JVal) : Except PyError Int :=
  match record with
  | .obj rkvs =>
    match dictGet rkvs "data" with
    | none => .error .keyError
    | some scoData =>
      match get_value_from_sco scoData "cmi.core.score.raw" (.num 0) with
      | .error e => .error e
      | .ok v => pyInt v
  | _ => .error .typeError

/-- The summation loop of `_set_lesson_score`, over the SCOs in dict
(insertion) order; the first raising record aborts the loop. -/
def sumScoScores : List (String × JVal) → Except PyError Int
  | [] => .ok 0
  | (_, record) :: rest =>
    match scoRecordScore record with
    | .error e => .error e
    | .ok n =>
      match sumScoScores rest with
      | .error e => .error e
      | .ok m => .ok (n + m)

/-- Embedding of `ScormXBlock._set_lesson_score(scos)`: sum the per-SCO
scores, divide by the number of SCOs (`ZeroDivisionError` when there are
none), store the rollup in `lesson_score` and return it.  A non-dict
argument raises `AttributeError` at `scos.keys()`. -/
def set_lesson_score (scosVal : JVal) (st : ScormState) : ScormState × Except PyError Rat :=
  match scosVal with
  | .obj scos =>
    match sumScoScores scos with
    | .error e => (st, .error e)
    | .ok total =>
      match scos with
      | [] => (st, .error .zeroDivisionError)
      | _ =>
        let score_rollup : Rat := (total : Rat) / (scos.length : Rat)
        ({ st with lesson_score := score_rollup }, .ok score_rollup)
  | _ => (st, .error .attributeError)

/-- Embedding of `ScormXBlock._publish_grade(status, score)`.  The
`status` argument is accepted and ignored, exactly as in the source.
When `score != ''`, one grade event
`{'value': (float(score)/float(DEFAULT_SCO_MAX_SCORE)) * weight,
'max_value': weight}` is published; `float(score)` raises for `None` and
for non-numeric strings, in which case nothing is published. -/
def publish_grade (status : JVal) (score : Option JVal) (st : ScormState) :
    ScormState × Except PyError Unit :=
  if scoreNeEmptyStr score then
    match pyFloat score with
    | .error e => (st, .error e)
    | .ok q =>
      ({ st with events :=
          st.events ++ [{ value := q / (DEFAULT_SCO_MAX_SCORE : Rat) * (st.weight : Rat)
                          max_value := st.weight }] },
       .ok ())
  else (st, .ok ())


/-- Embedding of `ScormXBlock._get_all_scos()`:
`json.loads(self.raw_scorm_status).get('scos', None)`.  A stored string
that fails to parse raises `ValueError`; a parsed document that is not an
object has no `.get` attribute. -/
def get_all_scos (loads : String → Option JVal) (st : ScormState) :
    Except PyError (Option JVal) :=
  match loads st.raw_scorm_status with
  | none => .error .valueError
  | some (.obj kvs) => .ok (dictGet kvs "scos")
  | some _ => .error .attributeError

/-- Embedding of `ScormXBlock._status_serialize_key(key, val)`: reload the
stored JSON document, set `status[key] = val`, and store the dump. -/
def status_serialize_key (loads : String → Option JVal) (dumps : JVal → String)
    (key : String) (val : JVal) (st : ScormState) : ScormState × Except PyError Unit :=
  match loads st.raw_scorm_status with
  | none => (st, .error .valueError)
  | some (.obj kvs) =>
    ({ st with raw_scorm_status := dumps (.obj (dictSet kvs key val)) }, .ok ())
  | some _ => (st, .error .typeError)

/-- The per-SCO guard and assignment in the `_scos_set_values` loop.  The
source tests `scos[sco].get('key')` — the literal string `'key'`, not the
`key` argument — so the guard is about a `'key'` entry of the record:
`not scos[sco].get('key') or (scos[sco].get('key') and overwrite)`. -/
def scoSetValue (key : String) (val : JVal) (overwrite : Bool) (record : JVal) :
    Except PyError JVal :=
  match record with
  | .obj rkvs =>
    if !(jTruthyOpt (dictGet rkvs "key")) || (jTruthyOpt (dictGet rkvs "key") && overwrite) then
      .ok (.obj (dictSet rkvs key val))
    else .ok (.obj rkvs)
  | _ => .error .attributeError

/-- The loop of `_scos_set_values` over all SCO records, in dict order. -/
def scosSetAll (key : String) (val : JVal) (overwrite : Bool) :
    List (String × JVal) → Except PyError (List (String × JVal))
  | [] => .ok []
  | (k, record) :: rest =>
    match scoSetValue key val overwrite record with
    | .error e => .error e
    | .ok record1 =>
      match scosSetAll key val overwrite rest with
      | .error e => .error e
      | .ok rest1 => .ok ((k, record1) :: rest1)

/-- Embedding of `ScormXBlock._scos_set_values(key, val, overwrite)`: set
a value for a key on all SCOs of the stored document and serialize the
result back; does nothing when the stored document has no truthy `scos`
entry.  A truthy non-object `scos` value fails when it is iterated and
indexed like a dict. -/
def scos_set_values (loads : String → Option JVal) (dumps : JVal → String)
    (key : String) (val : JVal) (overwrite : Bool) (st : ScormState) :
    ScormState × Except PyError Unit :=
  match get_all_scos loads st with
  | .error e => (st, .error e)
  | .ok scosOpt =>
    if jTruthyOpt scosOpt then
      match scosOpt with
      | some (.obj scos) =>
        match scosSetAll key val overwrite scos with
        | .error e => (st, .error e)
        | .ok scos1 => status_serialize_key loads dumps "scos" (.obj scos1) st
      | _ => (st, .error .typeError)
    else (st, .ok ())

/-- Embedding of `ScormXBlock._init_scos()`: derive
`credit = self.weight > 0 and 'credit' or 'no-credit'`, push it and the
`'not attempted'` lesson status onto all SCOs of the *stored* document,
then set the `scorm_initialized` flag (and bump the ghost run counter). -/
def init_scos (loads : String → Option JVal) (dumps : JVal → String) (st : ScormState) :
    ScormState × Except PyError Unit :=
  let credit : JVal := if st.weight > 0 then .str "credit" else .str "no-credit"
  match scos_set_values loads dumps "cmi.core.credit" credit false st with
  | (st1, .error e) => (st1, .error e)
  | (st1, .ok ()) =>
    match scos_set_values loads dumps "cmi.core.lesson_status" (.str "not attempted") true st1 with
    | (st2, .error e) => (st2, .error e)
    | (st2, .ok ()) =>
      ({ st2 with scorm_initialized := true, initCount := st2.initCount + 1 }, .ok ())

/-- Embedding of the `get_raw_scorm_status` handler: the response body is
the stored `raw_scorm_status` string, returned verbatim. -/
def get_raw_scorm_status (st : ScormState) : String :=
  st.raw_scorm_status

/-- Embedding of the `set_raw_scorm_status` handler, with `json.loads` /
`json.dumps` as parameters and `data` the submitted form field.  Order of
operations follows the source: parse, read `status` (default
`'not attempted'`), run `_init_scos` when not yet initialized (over the
previously stored document), replace the stored document with the raw
input, set `lesson_status`, read `score`, publish the grade, save.  The
response body is `json.dumps(self.raw_scorm_status)` — the dump of the
stored *string*. -/
def set_raw_scorm_status (loads : String → Option JVal) (dumps : JVal → String)
    (data : String) (st : ScormState) : ScormState × Except PyError String :=
  match loads data with
  | none => (st, .error .valueError)
  | some (.obj scorm_data) =>
    let new_status := (dictGet scorm_data "status").getD (.str "not attempted")
    match (if st.scorm_initialized then (st, Except.ok ()) else init_scos loads dumps st) with
    | (st1, .error e) => (st1, .error e)
    | (st1, .ok ()) =>
      let st2 := { st1 with raw_scorm_status := data }
      let st3 := { st2 with lesson_status := new_status }
      let score := dictGet scorm_data "score"
      match publish_grade new_status score st3 with
      | (st4, .error e) => (st4, .error e)
      | (st4, .ok ()) => (st4, .ok (dumps (.str st4.raw_scorm_status)))
  | some _ => (st, .error .attributeError)

/-- What the host persists after one `set_raw_scorm_status` request: the
handler's final state when it returned normally, the prior stored state
when it raised (the runtime saves the block only after a handler returns). -/
def persistedAfter (loads : String → Option JVal) (dumps : JVal → String)
    (data : String) (st : ScormState) : ScormState :=
  match set_raw_scorm_status loads dumps data st with
  | (st1, .ok _) => st1
  | (_, .error _) => st

/-- Persisted state after a sequence of `set_raw_scorm_status` requests
for one learner. -/
def runCalls (loads : String → Option JVal) (dumps : JVal → String)
    (inputs : List String) (st : ScormState) : ScormState :=
  inputs.foldl (fun s d => persistedAfter loads dumps d s) st

/-- Embedding of the `scorm_set_value` json handler on a request
dictionary.  For `name == 'cmi.core.lesson_status'` with a value other
than `'completed'`, the source assigns `lesson_status` and then calls
`self._publish_grade()` with no arguments; `_publish_grade` requires two
positional arguments (`status`, `score`), so the call itself raises
`TypeError` before anything is published.  For
`name == 'cmi.core.score.raw'` it rolls up `_set_lesson_score` on the
supplied value (default `0`).  The returned context is
`{'result': 'success'}`. -/
def scorm_set_value (data : List (String × JVal)) (st : ScormState) :
    ScormState × Except PyError (List (String × JVal)) :=
  let name := dictGet data "name"
  if jEqStr name "cmi.core.lesson_status" && !(jEqStr (dictGet data "value") "completed") then
    let st1 := { st with lesson_status := optToPy (dictGet data "value") }
    (st1, .error .typeError)
  else if jEqStr name "cmi.core.score.raw" then
    match set_lesson_score ((dictGet data "value").getD (.num 0)) st with
    | (st1, .error e) => (st1, .error e)
    | (st1, .ok _) => (st1, .ok [("result", .str "success")])
  else (st, .ok [("result", .str "success")])

/-- Embedding of `ConfigurationSettingsMixin.settings` (settings.py).

Inputs are the values the property reads from its collaborators:
`hasXblockSettings` — whether the Django settings object has
`XBLOCK_SETTINGS`; `install` — `XBLOCK_SETTINGS.get("ScormXBlock", {})`;
`hasSiteConfiguration` — whether the SiteConfiguration import succeeded;
`domain` — `configuration_helpers.get_value("XBLOCK_SETTINGS", {}).get("ScormXBlock", {})`;
`courseOrg` — truthiness of `self.course_org`; `org` —
`configuration_helpers.get_value_for_org(org, "XBLOCK_SETTINGS", {}).get("ScormXBlock")`,
which has no default, so it is `None` when the org configuration lacks a
`"ScormXBlock"` entry, making `base_settings.update(None)` raise
`TypeError`.  Overlays are applied shallowly with `dict.update`. -/
def settingsResolve (hasXblockSettings : Bool) (install : List (String × JVal))
    (hasSiteConfiguration : Bool) (domain : List (String × JVal))
    (courseOrg : Bool) (org : Option (List (String × JVal))) :
    Except PyError (List (String × JVal)) :=
  let base_settings := if hasXblockSettings then install else []
  if hasSiteConfiguration then
    let base_settings := dictUpdate base_settings domain
    if courseOrg then
      match org with
      | none => .error .typeError
      | some o => .ok (dictUpdate base_settings o)
    else .ok base_settings
  else .ok base_settings

/-- Outcome of one `storage.save` in the `studio_submit` upload loop. -/
inductive SaveOutcome where
  | ok
  | djangoUnicodeDecodeError
  | otherError (e : PyError)

/-- One extracted file in the `studio_submit` upload loop: the result of
re-encoding its path (`f.decode(self.encoding).encode('utf-8')`, which
raises `UnicodeDecodeError` on a mismatch) and, when that succeeds, the
outcome of `storage.save`. -/
structure ExtractedFile where
  decodePath : Except PyError String
  save : SaveOutcome

/-- The per-file loop of `studio_submit`: a path re-encoding failure
propagates; `encoding.DjangoUnicodeDecodeError` from `storage.save` is
caught, logged and skipped; any other save failure propagates. -/
def uploadFiles : List ExtractedFile → Except PyError Unit
  | [] => .ok ()
  | f :: rest =>
    match f.decodePath with
    | .error e => .error e
    | .ok _ =>
      match f.save with
      | .djangoUnicodeDecodeError => uploadFiles rest
      | .otherError e => .error e
      | .ok => uploadFiles rest

/-- Embedding of the temporary-directory segment of `studio_submit`
(from `tempdir = tempfile.mkdtemp()` to `shutil.rmtree(tempdir)`):
extract the archive into the fresh temporary directory, walk and upload
every file, then remove the directory.  There is no `try/finally` in the
source, so the `shutil.rmtree(tempdir)` line runs only when extraction
and the upload loop both complete without an uncaught exception.  The
returned flag records whether the temporary directory was removed. -/
def importPackageFiles (extract : Except PyError Unit) (files : List ExtractedFile) :
    Bool × Except PyError Unit :=
  match extract with
  | .error e => (false, .error e)
  | .ok () =>
    match uploadFiles files with
    | .error e => (false, .error e)
    | .ok () => (true, .ok ())

/-- True exactly on `Except.ok`. -/
def exceptIsOk : Except PyError Unit → Bool
  | .ok _ => true
  | .error _ => false

/-- Lookup into a field access path of a JSON document. -/
def jget (v : JVal) (k : String) : Option JVal :=
  match v with
  | .obj kvs => dictGet kvs k
  | _ => none

/-- First-some choice on options (how a shallow overlay resolves a key). -/
def optOr (a b : Option JVal) : Option JVal :=
  match a with
  | some v => some v
  | none => b

/-- Lookup returning the binding set last, matching what a left-to-right
sequence of `dict.update` assignments leaves in place. -/
def dictGetLast : List (String × JVal) → String → Option JVal
  | [], _ => none
  | (k1, v) :: rest, k =>
    match dictGetLast rest k with
    | some w => some w
    | none => if k1 = k then some v else none

/-- The persisted-state invariant behind the once-only initialization
guard: the ghost run counter of `_init_scos` is `1` exactly when the
`scorm_initialized` flag is set, else `0`. -/
def initInvariant (st : ScormState) : Prop :=
  st.initCount = if st.scorm_initialized then 1 else 0

/-- Concrete SCO document `\x7bA: score 80, B: score 60\x7d` from the spec's
rollup example. -/
def docAB : JVal :=
  .obj [("A", .obj [("data", .obj [("cmi.core.score.raw", .num 80)])]),
        ("B", .obj [("data", .obj [("cmi.core.score.raw", .num 60)])])]

/-- Concrete SCO document whose single SCO has a `data` sub-mapping but no
`cmi.core.score.raw` entry. -/
def docMissing : JVal := .obj [("A", .obj [("data", .obj [])])]

/-- A learner state for a block of weight 2 (the spec's grade example). -/
def stW : ScormState := { freshState with weight := 2 }

/-- A learner state whose `scorm_initialized` flag is already set. -/
def stInit : ScormState := { freshState with scorm_initialized := true }

/-- A concrete status document as submitted by the player: overall status
`passed`, score `"100"`, and one SCO `A` whose record carries only its
`data` sub-mapping. -/
def statusDoc : JVal :=
  .obj [("status", .str "passed"), ("score", .str "100"),
        ("scos", .obj [("A", .obj [("data", .obj [])])])]

/-- The JSON text of `statusDoc`. -/
def dataStr : String :=
  "\x7b\"status\": \"passed\", \"score\": \"100\", \"scos\": \x7b\"A\": \x7b\"data\": \x7b\x7d\x7d\x7d\x7d"

/-- A concrete stand-in for `json.loads` that agrees with the real parser
on the two documents the witnesses exercise (the default empty object and
`dataStr`) and rejects everything else. -/
def loadsEx : String → Option JVal := fun s =>
  if s = "\x7b\x7d" then some (.obj [])
  else if s = dataStr then some statusDoc
  else none

/-- A concrete stand-in for `json.dumps`, needed only to name response
bodies in the witnesses (the claims never inspect dumped text). -/
def dumpsEx : JVal → String := fun v =>
  match v with
  | .str s => "\"" ++ s ++ "\""
  | _ => ""

theorem dictGet_dictSet (b : List (String × JVal)) (k : String) (v : JVal) (k1 : String) :
    dictGet (dictSet b k v) k1 = if k = k1 then some v else dictGet b k1 := by
  induction b with
  | nil => simp [dictGet, dictSet]
  | cons hd tl ih =>
    obtain ⟨k2, v2⟩ := hd
    by_cases h2 : k2 = k
    · subst h2
      simp only [dictSet, if_pos rfl, dictGet]
      by_cases h1 : k2 = k1 <;> simp [h1]
    · simp only [dictSet, if_neg h2, dictGet]
      by_cases h1 : k2 = k1
      · subst h1
        have : ¬ (k = k2) := fun h => h2 h.symm
        simp [this]
      · simp [h1, ih]

theorem dictGet_dictUpdate (o b : List (String × JVal)) (k : String) :
    dictGet (dictUpdate b o) k = optOr (dictGetLast o k) (dictGet b k) := by
  induction o generalizing b with
  | nil => simp [dictUpdate, dictGetLast, optOr]
  | cons hd tl ih =>
    obtain ⟨k1, v1⟩ := hd
    have step : dictUpdate b ((k1, v1) :: tl) = dictUpdate (dictSet b k1 v1) tl := rfl
    rw [step, ih]
    simp only [dictGetLast]
    cases htl : dictGetLast tl k with
    | some w => simp [optOr]
    | none =>
      simp only [optOr, dictGet_dictSet]
      by_cases h1 : k1 = k <;> simp [h1, optOr]

theorem dictGet_mem_keys (l : List (String × JVal)) (k : String) (w : JVal)
    (h : dictGet l k = some w) : k ∈ l.map Prod.fst := by
  induction l with
  | nil => simp [dictGet] at h
  | cons hd tl ih =>
    obtain ⟨k1, v1⟩ := hd
    simp only [dictGet] at h
    by_cases h1 : k1 = k
    · simp [h1]
    · simp only [if_neg h1] at h
      simp [ih h]

theorem dictGetLast_eq_dictGet (l : List (String × JVal)) (k : String)
    (h : (l.map Prod.fst).Nodup) : dictGetLast l k = dictGet l k := by
  induction l with
  | nil => rfl
  | cons hd tl ih =>
    obtain ⟨k1, v1⟩ := hd
    simp only [List.map, List.nodup_cons] at h
    obtain ⟨hnotin, hnd⟩ := h
    simp only [dictGetLast, dictGet, ih hnd]
    cases htl : dictGet tl k with
    | some w =>
      have hk : k ∈ tl.map Prod.fst := dictGet_mem_keys tl k w htl
      have : ¬ (k1 = k) := fun he => hnotin (he ▸ hk)
      simp [this, htl]
    | none => rfl

theorem publish_grade_fields (status : JVal) (score : Option JVal) (st : ScormState) :
    (publish_grade status score st).1.raw_scorm_status = st.raw_scorm_status ∧
    (publish_grade status score st).1.scorm_initialized = st.scorm_initialized ∧
    (publish_grade status score st).1.initCount = st.initCount := by
  unfold publish_grade
  split
  · cases pyFloat score <;> simp
  · simp

theorem status_serialize_key_fields (loads : String → Option JVal) (dumps : JVal → String)
    (key : String) (val : JVal) (st : ScormState) :
    (status_serialize_key loads dumps key val st).1.scorm_initialized = st.scorm_initialized ∧
    (status_serialize_key loads dumps key val st).1.initCount = st.initCount := by
  unfold status_serialize_key
  cases loads st.raw_scorm_status with
  | none => simp
  | some v => cases v <;> simp

theorem scos_set_values_fields (loads : String → Option JVal) (dumps : JVal → String)
    (key : String) (val : JVal) (ow : Bool) (st : ScormState) :
    (scos_set_values loads dumps key val ow st).1.scorm_initialized = st.scorm_initialized ∧
    (scos_set_values loads dumps key val ow st).1.initCount = st.initCount := by
  unfold scos_set_values
  cases get_all_scos loads st with
  | error e => simp
  | ok scosOpt =>
    simp only
    split
    · rcases scosOpt with _ | v
      · simp
      · cases v with
        | obj scos =>
          simp only
          cases scosSetAll key val ow scos with
          | error e => simp
          | ok scos1 =>
            simpa using status_serialize_key_fields loads dumps "scos" (.obj scos1) st
        | null => simp
        | bool b => simp
        | num q => simp
        | str s => simp
        | arr xs => simp
    · simp

theorem init_scos_ok (loads : String → Option JVal) (dumps : JVal → String)
    (st st1 : ScormState) (h : init_scos loads dumps st = (st1, .ok ())) :
    st1.scorm_initialized = true ∧ st1.initCount = st.initCount + 1 := by
  simp only [init_scos] at h
  rcases h1 : scos_set_values loads dumps "cmi.core.credit"
      (if st.weight > 0 then JVal.str "credit" else JVal.str "no-credit") false st with ⟨sta, ra⟩
  rw [h1] at h
  cases ra with
  | error e => simp at h
  | ok u =>
    cases u
    simp only at h
    rcases h2 : scos_set_values loads dumps "cmi.core.lesson_status"
        (JVal.str "not attempted") true sta with ⟨stb, rb⟩
    rw [h2] at h
    cases rb with
    | error e => simp at h
    | ok u =>
      cases u
      simp only [Prod.mk.injEq] at h
      obtain ⟨hst, -⟩ := h
      subst hst
      have ha := scos_set_values_fields loads dumps "cmi.core.credit"
        (if st.weight > 0 then JVal.str "credit" else JVal.str "no-credit") false st
      have hb := scos_set_values_fields loads dumps "cmi.core.lesson_status"
        (JVal.str "not attempted") true sta
      rw [h1] at ha
      rw [h2] at hb
      simp only at ha hb
      exact ⟨rfl, by simp [hb.2, ha.2]⟩

theorem set_raw_ok_spec (loads : String → Option JVal) (dumps : JVal → String)
    (data : String) (st st1 : ScormState) (r : String)
    (h : set_raw_scorm_status loads dumps data st = (st1, .ok r)) :
    st1.raw_scorm_status = data ∧ st1.scorm_initialized = true ∧
    st1.initCount = st.initCount + (if st.scorm_initialized then 0 else 1) := by
  unfold set_raw_scorm_status at h
  cases hl : loads data with
  | none => rw [hl] at h; simp at h
  | some v =>
    rw [hl] at h
    cases v with
    | obj scorm_data =>
      simp only at h
      rcases hi : (if st.scorm_initialized then (st, Except.ok ())
          else init_scos loads dumps st) with ⟨sta, ra⟩
      rw [hi] at h
      cases ra with
      | error e => simp at h
      | ok u =>
        cases u
        simp only at h
        have hinit : sta.scorm_initialized = true ∧
            sta.initCount = st.initCount + (if st.scorm_initialized then 0 else 1) := by
          by_cases hf : st.scorm_initialized
          · rw [if_pos hf] at hi
            simp only [Prod.mk.injEq] at hi
            obtain ⟨h1, -⟩ := hi
            subst h1
            simp [hf]
          · rw [if_neg hf] at hi
            have := init_scos_ok loads dumps st sta hi
            simp [this.1, this.2, hf]
        rcases hp : publish_grade ((dictGet scorm_data "status").getD (.str "not attempted"))
            (dictGet scorm_data "score")
            { sta with raw_scorm_status := data,
                       lesson_status := (dictGet scorm_data "status").getD (.str "not attempted") }
            with ⟨stp, rp⟩
        rw [hp] at h
        cases rp with
        | error e => simp at h
        | ok u =>
          cases u
          simp only [Prod.mk.injEq] at h
          obtain ⟨h1, -⟩ := h
          subst h1
          have hf := publish_grade_fields ((dictGet scorm_data "status").getD (.str "not attempted"))
            (dictGet scorm_data "score")
            { sta with raw_scorm_status := data,
                       lesson_status := (dictGet scorm_data "status").getD (.str "not attempted") }
          rw [hp] at hf
          simp only at hf
          exact ⟨hf.1, by rw [hf.2.1]; exact hinit.1, by rw [hf.2.2]; exact hinit.2⟩
    | null => simp at h
    | bool b => simp at h
    | num q => simp at h
    | str s => simp at h
    | arr xs => simp at h

theorem set_raw_flag_true_fields (loads : String → Option JVal) (dumps : JVal → String)
    (data : String) (st : ScormState) (hflag : st.scorm_initialized = true) :
    (set_raw_scorm_status loads dumps data st).1.initCount = st.initCount ∧
    (set_raw_scorm_status loads dumps data st).1.scorm_initialized = true := by
  unfold set_raw_scorm_status
  cases hl : loads data with
  | none => simp [hflag]
  | some v =>
    cases v with
    | obj scorm_data =>
      simp only [hflag, if_true]
      rcases hp : publish_grade ((dictGet scorm_data "status").getD (.str "not attempted"))
          (dictGet scorm_data "score")
          { st with raw_scorm_status := data,
                    lesson_status := (dictGet scorm_data "status").getD (.str "not attempted") }
          with ⟨stp, rp⟩
      have hf := publish_grade_fields ((dictGet scorm_data "status").getD (.str "not attempted"))
        (dictGet scorm_data "score")
        { st with raw_scorm_status := data,
                  lesson_status := (dictGet scorm_data "status").getD (.str "not attempted") }
      rw [hp] at hf
      simp only at hf
      rw [hflag] at hp hf
      cases rp with
      | error e => simp [hp, hf.2.2, hf.2.1]
      | ok u => cases u; simp [hp, hf.2.2, hf.2.1]
    | null => simp [hflag]
    | bool b => simp [hflag]
    | num q => simp [hflag]
    | str s => simp [hflag]
    | arr xs => simp [hflag]

theorem persistedAfter_invariant (loads : String → Option JVal) (dumps : JVal → String)
    (data : String) (st : ScormState) (h : initInvariant st) :
    initInvariant (persistedAfter loads dumps data st) := by
  unfold persistedAfter
  rcases hr : set_raw_scorm_status loads dumps data st with ⟨st1, res⟩
  cases res with
  | error e => exact h
  | ok r =>
    have hspec := set_raw_ok_spec loads dumps data st st1 r hr
    unfold initInvariant at h ⊢
    rw [hspec.2.1, hspec.2.2, h]
    by_cases hf : st.scorm_initialized <;> simp [hf]

theorem runCalls_invariant (loads : String → Option JVal) (dumps : JVal → String)
    (inputs : List String) (st : ScormState) (h : initInvariant st) :
    initInvariant (runCalls loads dumps inputs st) := by
  induction inputs generalizing st with
  | nil => exact h
  | cons d rest ih =>
    exact ih (persistedAfter loads dumps d st) (persistedAfter_invariant loads dumps d st h)

/-- Claim C1 (code defect evidence): the claim says `_set_lesson_score`
treats a missing `cmi.core.score.raw` as 0 — as `_get_value_from_sco`'s
own docstring promises — but on a SCO whose `data` lacks the key the code
raises `UnboundLocalError` (the `finally` block reads the never-bound
`val`), so the rollup crashes instead of averaging with 0.  On SCOs that
do carry numeric scores the rollup is the arithmetic mean as claimed:
`A: 80, B: 60` gives exactly 70.0. -/
theorem c1_rollup_missing_value_bug :
    set_lesson_score docMissing freshState = (freshState, .error .unboundLocalError) ∧
    set_lesson_score docAB freshState = ({ freshState with lesson_score := 70 }, .ok 70) := by
  constructor
  · rfl
  · have h : (((140 : Int)) : Rat) / (((2 : Nat)) : Rat) = 70 := by norm_num
    calc set_lesson_score docAB freshState
        = ({ freshState with lesson_score := (((140 : Int)) : Rat) / (((2 : Nat)) : Rat) },
           .ok ((((140 : Int)) : Rat) / (((2 : Nat)) : Rat))) := rfl
      _ = ({ freshState with lesson_score := 70 }, .ok 70) := by rw [h]

/-- Claim C5: on an empty SCO mapping the rollup `_set_lesson_score` hits
`float(total)/float(len(scos.keys()))` with a zero denominator and raises
`ZeroDivisionError`; it does not return a defined 0 result, and the state
is left unmodified at the moment of the raise. -/
theorem c5_empty_scos_zero_division (st : ScormState) :
    set_lesson_score (.obj []) st = (st, .error .zeroDivisionError) := rfl

/-- Claim C10: `scorm_set_value` with name `cmi.core.lesson_status` and
value `completed` returns the success context and leaves the state
untouched; with any other value it assigns `lesson_status` and then
raises `TypeError`, because `self._publish_grade()` is called without its
two required positional arguments, so no grade event is ever emitted on
this path (the events log is unchanged in both outcomes). -/
theorem c10_lesson_status_path (st : ScormState) (v : JVal) :
    scorm_set_value [("name", .str "cmi.core.lesson_status"), ("value", v)] st =
      if jEqStr (some v) "completed" then (st, .ok [("result", .str "success")])
      else ({ st with lesson_status := v }, .error .typeError) := by
  have hname : dictGet [("name", JVal.str "cmi.core.lesson_status"), ("value", v)] "name" =
      some (.str "cmi.core.lesson_status") := rfl
  have hval : dictGet [("name", JVal.str "cmi.core.lesson_status"), ("value", v)] "value" =
      some v := rfl
  have h1 : jEqStr (some (JVal.str "cmi.core.lesson_status")) "cmi.core.lesson_status" = true := rfl
  have h2 : jEqStr (some (JVal.str "cmi.core.lesson_status")) "cmi.core.score.raw" = false := rfl
  cases hb : jEqStr (some v) "completed" with
  | false => simp [scorm_set_value, hname, hval, hb, h1, h2, optToPy]
  | true => simp [scorm_set_value, hname, hval, hb, h1, h2, optToPy]

/-- Claim C9 (counterexample): an extracted file whose path re-encoding
raises `UnicodeDecodeError` makes the import exit with that error without
ever reaching `shutil.rmtree(tempdir)` — the temporary directory is not
removed on this failure path, contradicting the claimed
removed-on-every-exit-path guarantee. -/
theorem c9_counterexample :
    importPackageFiles (.ok ()) [{ decodePath := .error .unicodeDecodeError, save := .ok }] =
      (false, .error .unicodeDecodeError) := rfl

/-- Claim C9 (amended): the temporary extraction directory is removed
exactly on the runs where extraction and the per-file upload loop finish
without an uncaught exception; per-file `DjangoUnicodeDecodeError` during
upload is caught and skipped (so such runs still reach the cleanup), but
any failure in extraction, path re-encoding, or a non-encoding upload
error propagates before `shutil.rmtree` runs. -/
theorem c9_cleanup_amended (extract : Except PyError Unit) (files : List ExtractedFile) :
    ((importPackageFiles extract files).1 = exceptIsOk (importPackageFiles extract files).2) ∧
    importPackageFiles (.ok ()) [{ decodePath := .ok "f", save := .djangoUnicodeDecodeError }] =
      (true, .ok ()) := by
  constructor
  · unfold importPackageFiles
    cases extract with
    | error e => rfl
    | ok u =>
      cases u
      cases hu : uploadFiles files with
      | error e => rfl
      | ok u => cases u; rfl
  · rfl

/-- Claim C2 (counterexample): with a missing score
(`scorm_data.get('score')` returns `None`, squarely inside the contract's
`score: optional string` domain) and status `completed`, `_publish_grade`
does not emit exactly one grade event: `None != ''` passes the guard and
`float(None)` raises `TypeError`, so no event is emitted at all. -/
theorem c2_counterexample :
    publish_grade (.str "completed") none freshState = (freshState, .error .typeError) ∧
    freshState.events = [] := ⟨rfl, rfl⟩

/-- Claim C2 (amended): for every status value, `_publish_grade` is a
no-op (no event, state untouched) when the score is exactly the empty
string; when the score converts to a number `q` (a numeric value or
numeric string) it emits exactly one grade event with value
`(q / 100.0) * weight` and max_value `weight`; a score that `float`
rejects (`None`, non-numeric) raises with no event emitted and no state
change. -/
theorem c2_publish_grade_amended (status : JVal) (score : Option JVal) (st : ScormState) :
    (score = some (.str "") → publish_grade status score st = (st, .ok ())) ∧
    (∀ q : Rat, pyFloat score = .ok q →
      publish_grade status score st =
        ({ st with events := st.events ++
            [{ value := q / (DEFAULT_SCO_MAX_SCORE : Rat) * (st.weight : Rat),
               max_value := st.weight }] }, .ok ())) ∧
    (∀ e : PyError, score ≠ some (.str "") → pyFloat score = .error e →
      publish_grade status score st = (st, .error e)) := by
  refine ⟨?_, ?_, ?_⟩
  · intro h
    subst h
    rfl
  · intro q hq
    have hne : scoreNeEmptyStr score = true := by
      cases score with
      | none => simp [pyFloat] at hq
      | some v =>
        cases v with
        | str s =>
          by_cases hs : s = ""
          · subst hs
            have : pyFloat (some (JVal.str "")) = .error .valueError := rfl
            rw [this] at hq
            simp at hq
          · simp [scoreNeEmptyStr, hs]
        | null => simp [pyFloat] at hq
        | bool b => rfl
        | num q2 => rfl
        | arr xs => simp [pyFloat] at hq
        | obj kvs => simp [pyFloat] at hq
    unfold publish_grade
    simp [hne, hq]
  · intro e hns hq
    have hne : scoreNeEmptyStr score = true := by
      cases score with
      | none => rfl
      | some v =>
        cases v with
        | str s =>
          by_cases hs : s = ""
          · exact absurd (by rw [hs]) hns
          · simp [scoreNeEmptyStr, hs]
        | null => rfl
        | bool b => simp [pyFloat] at hq
        | num q2 => simp [pyFloat] at hq
        | arr xs => rfl
        | obj kvs => rfl
    unfold publish_grade
    simp [hne, hq]

/-- Claim C2 (witness): weight 2 and score "50" produce exactly the grade
event with value 1.0 and max_value 2. -/
theorem c2_witness :
    (publish_grade (.str "completed") (some (.str "50")) stW =
      ({ stW with events := stW.events ++
          [{ value := (50 : Rat) / (DEFAULT_SCO_MAX_SCORE : Rat) * (stW.weight : Rat),
             max_value := stW.weight }] }, .ok ())) ∧
    (50 : Rat) / (DEFAULT_SCO_MAX_SCORE : Rat) * (stW.weight : Rat) = 1 ∧ stW.weight = 2 :=
  ⟨(c2_publish_grade_amended (.str "completed") (some (.str "50")) stW).2.1 50 rfl,
   by norm_num [DEFAULT_SCO_MAX_SCORE, stW, freshState], rfl⟩

/-- Claim C7: when the submitted `data` string is not valid JSON,
`json.loads` raises `ValueError` on the very first statement of
`set_raw_scorm_status`, before any field is touched, so the request is
rejected with an error (not silently swallowed) and the persisted learner
state — `raw_scorm_status`, `lesson_status`, `lesson_score`,
`scorm_initialized` — is exactly the prior state. -/
theorem c7_malformed_json (loads : String → Option JVal) (dumps : JVal → String)
    (data : String) (st : ScormState) (h : loads data = none) :
    set_raw_scorm_status loads dumps data st = (st, .error .valueError) ∧
    persistedAfter loads dumps data st = st := by
  have h1 : set_raw_scorm_status loads dumps data st = (st, .error .valueError) := by
    unfold set_raw_scorm_status
    rw [h]
  refine ⟨h1, ?_⟩
  unfold persistedAfter
  rw [h1]

/-- Claim C7 (witness): the concrete non-JSON string "not json" is
rejected with `ValueError` and the fresh learner state persists
unchanged. -/
theorem c7_witness :
    set_raw_scorm_status loadsEx dumpsEx "not json" freshState =
      (freshState, .error .valueError) ∧
    persistedAfter loadsEx dumpsEx "not json" freshState = freshState :=
  c7_malformed_json loadsEx dumpsEx "not json" freshState rfl

/-- Claim C6: whenever `set_raw_scorm_status(X)` returns normally, the
stored document is the submitted string verbatim, so a following
`get_raw_scorm_status` returns exactly `X` (the store is not re-derived
on read: the handler body is just `Response(self.raw_scorm_status)`). -/
theorem c6_roundtrip (loads : String → Option JVal) (dumps : JVal → String)
    (data : String) (st st1 : ScormState) (r : String)
    (h : set_raw_scorm_status loads dumps data st = (st1, .ok r)) :
    get_raw_scorm_status st1 = data := by
  have hs := set_raw_ok_spec loads dumps data st st1 r h
  unfold get_raw_scorm_status
  exact hs.1

/-- Claim C6 (witness): after a successful concrete submission of
`dataStr` the stored status returned by `get_raw_scorm_status` is
`dataStr` itself. -/
theorem c6_witness :
    get_raw_scorm_status (set_raw_scorm_status loadsEx dumpsEx dataStr freshState).1 = dataStr :=
  c6_roundtrip loadsEx dumpsEx dataStr freshState _ _ rfl

/-- Claim C3 (counterexample): on the very first `set_raw_scorm_status`
call for a fresh learner, the submitted document's SCO `A` does NOT end
the call with `cmi.core.lesson_status`/`cmi.core.credit` defaults:
`_init_scos` runs against the previously stored document (the default
empty object, which knows no SCOs) and the store is then replaced
verbatim with the raw input, whose `A` record still carries neither key. -/
theorem c3_counterexample :
    (set_raw_scorm_status loadsEx dumpsEx dataStr freshState).2 =
      .ok (dumpsEx (.str dataStr)) ∧
    loadsEx ((set_raw_scorm_status loadsEx dumpsEx dataStr freshState).1.raw_scorm_status) =
      some statusDoc ∧
    (jget statusDoc "scos").bind (fun s => jget s "A") = some (.obj [("data", .obj [])]) ∧
    ((jget statusDoc "scos").bind (fun s => jget s "A")).bind
      (fun a => jget a "cmi.core.lesson_status") = none ∧
    ((jget statusDoc "scos").bind (fun s => jget s "A")).bind
      (fun a => jget a "cmi.core.credit") = none :=
  ⟨rfl, rfl, rfl, rfl, rfl⟩

/-- Claim C3 (amended): on the first successful `set_raw_scorm_status`
call for a learner (`scorm_initialized` false), `_init_scos` runs once
(deriving credit from `weight > 0` and writing defaults only into the
previously stored document), the `scorm_initialized` flag is set, and the
stored document ends the call as the raw input verbatim — so the SCOs of
the submitted document keep exactly the keys they were submitted with. -/
theorem c3_first_call_amended (loads : String → Option JVal) (dumps : JVal → String)
    (data : String) (st st1 : ScormState) (r : String)
    (hflag : st.scorm_initialized = false)
    (h : set_raw_scorm_status loads dumps data st = (st1, .ok r)) :
    st1.raw_scorm_status = data ∧ st1.scorm_initialized = true ∧
    st1.initCount = st.initCount + 1 := by
  have hs := set_raw_ok_spec loads dumps data st st1 r h
  refine ⟨hs.1, hs.2.1, ?_⟩
  rw [hs.2.2, hflag]
  rfl

/-- Claim C3 (amended, witness): the concrete first call stores `dataStr`
verbatim, sets the flag, and runs initialization exactly once. -/
theorem c3_witness :
    (set_raw_scorm_status loadsEx dumpsEx dataStr freshState).1.raw_scorm_status = dataStr ∧
    (set_raw_scorm_status loadsEx dumpsEx dataStr freshState).1.scorm_initialized = true ∧
    (set_raw_scorm_status loadsEx dumpsEx dataStr freshState).1.initCount =
      freshState.initCount + 1 :=
  c3_first_call_amended loadsEx dumpsEx dataStr freshState _ _ rfl rfl

/-- Claim C4: initialization is idempotent-guarded.  A call on a state
whose `scorm_initialized` flag is already set never executes `_init_scos`
(the ghost run counter is unchanged even when the call later fails), and
across any sequence of persisted `set_raw_scorm_status` calls starting
from a fresh learner the initializer has run exactly once as soon as the
flag is set (and never again), so second and subsequent calls never
re-apply per-SCO `credit`/`lesson_status` defaults. -/
theorem c4_init_guard :
    (∀ (loads : String → Option JVal) (dumps : JVal → String) (data : String) (st : ScormState),
      st.scorm_initialized = true →
      (set_raw_scorm_status loads dumps data st).1.initCount = st.initCount ∧
      (set_raw_scorm_status loads dumps data st).1.scorm_initialized = true) ∧
    (∀ (loads : String → Option JVal) (dumps : JVal → String) (inputs : List String),
      (runCalls loads dumps inputs freshState).initCount =
        if (runCalls loads dumps inputs freshState).scorm_initialized then 1 else 0) := by
  constructor
  · intro loads dumps data st hflag
    exact set_raw_flag_true_fields loads dumps data st hflag
  · intro loads dumps inputs
    exact runCalls_invariant loads dumps inputs freshState rfl

/-- Claim C4 (witness): a concrete call on an already-initialized state
leaves the initializer run counter unchanged. -/
theorem c4_witness :
    (set_raw_scorm_status loadsEx dumpsEx dataStr stInit).1.initCount = stInit.initCount ∧
    (set_raw_scorm_status loadsEx dumpsEx dataStr stInit).1.scorm_initialized = true :=
  c4_init_guard.1 loadsEx dumpsEx dataStr stInit rfl

/-- Claim C8: `ConfigurationSettingsMixin.settings` resolves configuration
by three shallow overlays with last-wins per key — installation defaults,
then domain (site) overrides, then course-org overrides — so for any key
the resolved value is the org binding if present, else the domain
binding, else the installation default. -/
theorem c8_settings_overlay (install domain org : List (String × JVal)) (k : String)
    (hd : (domain.map Prod.fst).Nodup) (ho : (org.map Prod.fst).Nodup) :
    settingsResolve true install true domain true (some org) =
      .ok (dictUpdate (dictUpdate install domain) org) ∧
    dictGet (dictUpdate (dictUpdate install domain) org) k =
      optOr (dictGet org k) (optOr (dictGet domain k) (dictGet install k)) := by
  refine ⟨rfl, ?_⟩
  rw [dictGet_dictUpdate, dictGet_dictUpdate, dictGetLast_eq_dictGet org k ho,
    dictGetLast_eq_dictGet domain k hd]

/-- Claim C8 (witness): installation default X=1, domain override X=2 and
org override X=3 resolve to X=3. -/
theorem c8_witness :
    settingsResolve true [("X", JVal.num 1)] true [("X", JVal.num 2)] true
      (some [("X", JVal.num 3)]) =
      .ok (dictUpdate (dictUpdate [("X", JVal.num 1)] [("X", JVal.num 2)]) [("X", JVal.num 3)]) ∧
    dictGet (dictUpdate (dictUpdate [("X", JVal.num 1)] [("X", JVal.num 2)])
      [("X", JVal.num 3)]) "X" = some (.num 3) := by
  have h := c8_settings_overlay [("X", JVal.num 1)] [("X", JVal.num 2)] [("X", JVal.num 3)] "X"
    (by simp) (by simp)
  exact ⟨h.1, h.2.trans rfl⟩
